import Mathlib

/-!
Shallow embedding of the process-control equipment simulations
(`Control_valve_flow.c`, `seperator.c`, `transmitter_opcua.c`,
`valve_control_opcua.c`).

Modelling conventions:
* C `double` arithmetic is embedded as exact real arithmetic over `ℝ`.
  Where an IEEE NaN is the observable behaviour under scrutiny (the flow
  valve's `sqrt` of a possibly negative pressure differential), the value
  is embedded as `Option ℝ`, with `none` standing for NaN.
* C unsigned integers are embedded as `ℕ`; the `uint32_t` millisecond
  timer of the on/off valve wraps with an explicit `% 2^32`.
* `clock()` wall time is passed to the flow-valve update as an explicit
  `now : ℝ` argument.
* The function-local `static bool increasing` of `Transmitter_Update` is
  additional program state and is carried as a field of the embedded
  transmitter record.
-/

/-! ### On/off valve supervisor (`valve_control_opcua.c`) -/

/-- The `ValveState` enum of `valve_control_opcua.c`. -/
inductive ValveState where
  | Closed
  | Opening
  | Open
  | Closing
  | Fault
deriving DecidableEq

/-- The `param` sub-struct of `OnOffValve`. -/
structure ValveParam where
  solenoid_count : ℕ
  esd_latching : Bool
  travel_time_ms : ℕ
deriving DecidableEq

/-- The `state` sub-struct of `OnOffValve`. -/
structure ValveInternal where
  current_state : ValveState
  target_state : ValveState
  state_timer : ℕ
  esd_latched : Bool
  solenoids_energized : Bool × Bool × Bool
deriving DecidableEq

/-- The I/O-terminal sub-struct of `OnOffValve` (named `io` in the C
source; renamed `sig` here). -/
structure ValveSignals where
  solenoid_cmds : Bool × Bool × Bool
  ls_open : Bool
  ls_close : Bool
  reset_cmd : Bool
  solenoid_outputs : Bool × Bool × Bool
  valve_moving : Bool
  fault : Bool
deriving DecidableEq

/-- The `OnOffValve` struct. -/
structure OnOffValve where
  param : ValveParam
  state : ValveInternal
  sig : ValveSignals
deriving DecidableEq

/-- The `all_solenoids_energized` loop of `Valve_Update`: AND of the
first `solenoid_count` entries of `solenoid_cmds` (the C array has three
entries; counts above 3 read past the array and are undefined behaviour,
theorems about the count therefore carry `solenoid_count ≤ 3`). -/
def allEnergized (count : ℕ) (cmds : Bool × Bool × Bool) : Bool :=
  (decide (count ≤ 0) || cmds.1) &&
  ((decide (count ≤ 1) || cmds.2.1) &&
   (decide (count ≤ 2) || cmds.2.2))

/-- `Valve_Update` from `valve_control_opcua.c`.  The `uint32_t` timer
wraps modulo `2^32`.  The C `switch` has a defensive `default` case that
moves to `VALVE_FAULT`; it is unreachable here because the inductive
`ValveState` has exactly the five enum values. -/
def Valve_Update (cycle_time_ms : ℕ) (v : OnOffValve) : OnOffValve :=
  let all_energized := allEnergized v.param.solenoid_count v.sig.solenoid_cmds
  match v.state.current_state with
  | ValveState.Closed =>
      if all_energized then
        { v with
          state := { v.state with current_state := ValveState.Opening, state_timer := 0 }
          sig := { v.sig with valve_moving := true } }
      else v
  | ValveState.Opening =>
      let t := (v.state.state_timer + cycle_time_ms) % 4294967296
      if v.param.travel_time_ms ≤ t then
        { v with
          state := { v.state with current_state := ValveState.Open, state_timer := t }
          sig := { v.sig with valve_moving := false } }
      else
        { v with state := { v.state with state_timer := t } }
  | ValveState.Open =>
      if all_energized then v
      else
        { v with
          state := { v.state with current_state := ValveState.Closing, state_timer := 0 }
          sig := { v.sig with valve_moving := true } }
  | ValveState.Closing =>
      let t := (v.state.state_timer + cycle_time_ms) % 4294967296
      if v.param.travel_time_ms ≤ t then
        { v with
          state := { v.state with current_state := ValveState.Closed, state_timer := t }
          sig := { v.sig with valve_moving := false } }
      else
        { v with state := { v.state with state_timer := t } }
  | ValveState.Fault =>
      if v.sig.reset_cmd then
        { v with
          state := { v.state with current_state := ValveState.Closed }
          sig := { v.sig with fault := false, reset_cmd := false } }
      else v

/-- `Valve_Init`: `memset` to zero, then `solenoid_count = 3`,
`travel_time_ms = 5000`, both states `VALVE_CLOSED`. -/
def Valve_Init : OnOffValve :=
  { param := { solenoid_count := 3, esd_latching := false, travel_time_ms := 5000 }
    state := { current_state := ValveState.Closed, target_state := ValveState.Closed,
               state_timer := 0, esd_latched := false,
               solenoids_energized := (false, false, false) }
    sig := { solenoid_cmds := (false, false, false), ls_open := false, ls_close := false,
             reset_cmd := false, solenoid_outputs := (false, false, false),
             valve_moving := false, fault := false } }

/-- One external input assignment: the OPC UA write callbacks can set the
solenoid commands and the reset command (and the unused limit switches)
before a cycle's `Valve_Update` call. -/
structure ValveInputs where
  cmds : Bool × Bool × Bool
  lso : Bool
  lsc : Bool
  rst : Bool

/-- Apply one external input assignment to the valve's input terminals. -/
def applyInputs (i : ValveInputs) (v : OnOffValve) : OnOffValve :=
  { v with sig := { v.sig with solenoid_cmds := i.cmds, ls_open := i.lso,
                               ls_close := i.lsc, reset_cmd := i.rst } }

/-- Run the supervisor over a list of per-cycle input assignments: each
cycle sets the inputs and then calls `Valve_Update`. -/
def valveRun (cycle_time_ms : ℕ) (l : List ValveInputs) (v : OnOffValve) : OnOffValve :=
  l.foldl (fun s i => Valve_Update cycle_time_ms (applyInputs i s)) v

/-- Overwrite the `esd_latching` parameter. -/
def withLatching (b : Bool) (v : OnOffValve) : OnOffValve :=
  { v with param := { v.param with esd_latching := b } }

/-- The Opening-in-progress configuration reached from `s` while the
travel timer counts up: state `VALVE_OPENING`, timer `t`, `valve_moving`
set, everything else as in `s`. -/
def openingAt (s : OnOffValve) (t : ℕ) : OnOffValve :=
  { s with
    state := { s.state with current_state := ValveState.Opening, state_timer := t }
    sig := { s.sig with valve_moving := true } }

/-- Concrete valve used to refute claim C2 as stated: closed, timer 0,
all three solenoid commands energized, travel time 200 ms. -/
def c2Valve : OnOffValve :=
  { param := { solenoid_count := 3, esd_latching := false, travel_time_ms := 200 }
    state := { current_state := ValveState.Closed, target_state := ValveState.Closed,
               state_timer := 0, esd_latched := false,
               solenoids_energized := (false, false, false) }
    sig := { solenoid_cmds := (true, true, true), ls_open := false, ls_close := false,
             reset_cmd := false, solenoid_outputs := (false, false, false),
             valve_moving := false, fault := false } }

/-- Concrete latched-fault valve with the reset command not asserted. -/
def faultValve : OnOffValve :=
  { param := { solenoid_count := 3, esd_latching := false, travel_time_ms := 5000 }
    state := { current_state := ValveState.Fault, target_state := ValveState.Closed,
               state_timer := 40, esd_latched := false,
               solenoids_energized := (false, false, false) }
    sig := { solenoid_cmds := (true, false, true), ls_open := false, ls_close := true,
             reset_cmd := false, solenoid_outputs := (false, false, false),
             valve_moving := false, fault := true } }

/-- Concrete latched-fault valve with the reset command asserted. -/
def faultValveReset : OnOffValve :=
  { faultValve with sig := { faultValve.sig with reset_cmd := true } }

/-! ### Flow control valve (`Control_valve_flow.c`) -/

/-- The `config` sub-struct of `FlowControlValve` (the C
`valve_characteristic` is an `int32_t`). -/
structure FCVConfig where
  control_signal : ℝ
  upstream_pressure : ℝ
  kv : ℝ
  valve_characteristic : ℤ

/-- The `state` sub-struct of `FlowControlValve`; `flow` is `Option ℝ`
with `none` standing for an IEEE NaN. -/
structure FCVState where
  valve_opening : ℝ
  flow : Option ℝ

/-- The `error` sub-struct of `FlowControlValve`. -/
structure FCVError where
  stiction_threshold : ℝ
  dead_time_seconds : ℝ
  hysteresis_percent : ℝ
  positioner_error_percent : ℝ
  last_control_signal : ℝ
  last_update_time : ℝ

/-- The `FlowControlValve` struct. -/
structure FlowControlValve where
  config : FCVConfig
  state : FCVState
  error : FCVError

/-- IEEE `sqrt` on doubles: NaN (`none`) for a negative argument,
otherwise the real square root. -/
noncomputable def sqrtD (x : ℝ) : Option ℝ :=
  if x < 0 then none else some (Real.sqrt x)

/-- Characteristic fraction of `FlowControlValve_Update`: `opening/100`
when `valve_characteristic == 0` (linear), otherwise
`(pow(R, opening/100) - 1)/(R - 1)` with `R = 50` (equal percentage). -/
noncomputable def charFraction (ch : ℤ) (opening : ℝ) : ℝ :=
  if ch = 0 then opening / 100
  else ((50 : ℝ) ^ (opening / 100) - 1) / (50 - 1)

/-- Lines 94-104 of `Control_valve_flow.c` as a function of the computed
valve opening: `Cv_eff = kv * f_opening`, `delta_p = upstream_pressure -
1.0`, `flow = Cv_eff * sqrt(delta_p)` (no clamp of `delta_p`). -/
noncomputable def flowFromOpening (kv up : ℝ) (ch : ℤ) (opening : ℝ) : Option ℝ :=
  (sqrtD (up - 1)).map (fun r => kv * charFraction ch opening * r)

/-- `FlowControlValve_Update`.  `now` is the `clock()/CLOCKS_PER_SEC`
wall time, passed explicitly.  A cycle arriving before
`dead_time_seconds` has elapsed since the last accepted update leaves
the valve untouched. -/
noncomputable def FlowControlValve_Update (now : ℝ) (v : FlowControlValve) : FlowControlValve :=
  let control0 := min (max v.config.control_signal 0) 100
  if now - v.error.last_update_time < v.error.dead_time_seconds then v
  else
    let cs1 :=
      if |control0 - v.error.last_control_signal| < v.error.stiction_threshold then
        v.error.last_control_signal
      else control0
    let hyst :=
      if v.error.last_control_signal < cs1 then v.error.hysteresis_percent
      else if cs1 < v.error.last_control_signal then -v.error.hysteresis_percent
      else 0
    let cs2 := min (max (cs1 + hyst) 0) 100
    let opening := min (max (cs2 * (1 + v.error.positioner_error_percent / 100)) 0) 100
    { config := v.config
      state := { valve_opening := opening
                 flow := flowFromOpening v.config.kv v.config.upstream_pressure
                           v.config.valve_characteristic opening }
      error := { v.error with last_control_signal := cs1, last_update_time := now } }

/-- Concrete flow valve with `upstream_pressure = 0.5 < 1.0` used to
refute claim C1: the unclamped `delta_p` is negative and `sqrt` yields
NaN. -/
noncomputable def fcvBad : FlowControlValve :=
  { config := { control_signal := 50, upstream_pressure := 0.5, kv := 10,
                valve_characteristic := 0 }
    state := { valve_opening := 50, flow := some 0 }
    error := { stiction_threshold := 0.5, dead_time_seconds := 0,
               hysteresis_percent := 0, positioner_error_percent := 0,
               last_control_signal := 50, last_update_time := 0 } }

/-- Concrete flow valve with the documented defaults
(`FlowControlValve_Init` with characteristic 1). -/
noncomputable def fcvGood : FlowControlValve :=
  { config := { control_signal := 50, upstream_pressure := 5, kv := 10,
                valve_characteristic := 1 }
    state := { valve_opening := 50, flow := some 0 }
    error := { stiction_threshold := 0.5, dead_time_seconds := 0,
               hysteresis_percent := 0, positioner_error_percent := 0,
               last_control_signal := 50, last_update_time := 0 } }

/-- Flow valve whose dead-time gate rejects the next cycle at `now = 1`:
`dead_time_seconds = 5` and `last_update_time = 0`. -/
noncomputable def fcvGated : FlowControlValve :=
  { fcvGood with error := { fcvGood.error with dead_time_seconds := 5 } }

/-! ### Transmitter (`transmitter_opcua.c`) -/

/-- The `config` sub-struct of `Transmitter`. -/
structure TxConfig where
  min_range : ℝ
  max_range : ℝ
  min_scale : ℝ
  max_scale : ℝ
  step_size : ℝ
  simulation_active : Bool
  sine_wave : Bool
  sawtooth_wave : Bool
  overflow : Bool
  underflow : Bool

/-- The `state` sub-struct of `Transmitter`. -/
structure TxState where
  current_value : ℝ
  simulation_time : ℝ
  fault : Bool

/-- The `Transmitter` struct together with the function-local
`static bool increasing` of `Transmitter_Update`. -/
structure Transmitter where
  config : TxConfig
  state : TxState
  increasing : Bool

/-- The `PI` macro of the source. -/
noncomputable def cPI : ℝ := 3.14159265

/-- Truncation toward zero, as used by C `fmod`. -/
noncomputable def ctruncR (x : ℝ) : ℝ :=
  if 0 ≤ x then (⌊x⌋ : ℝ) else (⌈x⌉ : ℝ)

/-- C `fmod(x, y) = x - y * trunc(x / y)`. -/
noncomputable def fmodD (x y : ℝ) : ℝ := x - y * ctruncR (x / y)

/-- `Transmitter_Update`.  No-op unless `simulation_active`; advances
`simulation_time`; overflow and underflow pin the value and return early
(skipping the fault recomputation); otherwise sine, sawtooth or the
ramp-and-reverse walk produce the value and `fault` is recomputed. -/
noncomputable def Transmitter_Update (tx : Transmitter) (cycle_time_ms : ℕ) : Transmitter :=
  if tx.config.simulation_active = false then tx
  else
    let time_step := (cycle_time_ms : ℝ) / 1000
    let t := tx.state.simulation_time + time_step
    if tx.config.overflow then
      { tx with state := { current_value := tx.config.max_scale, simulation_time := t,
                           fault := tx.state.fault } }
    else if tx.config.underflow then
      { tx with state := { current_value := tx.config.min_scale, simulation_time := t,
                           fault := tx.state.fault } }
    else
      let vi : ℝ × Bool :=
        if tx.config.sine_wave then
          (tx.config.min_range + ((tx.config.max_range - tx.config.min_range) / 2) *
             (1 + Real.sin (2 * cPI * 0.1 * t)), tx.increasing)
        else if tx.config.sawtooth_wave then
          (tx.config.min_range + (tx.config.max_range - tx.config.min_range) *
             (fmodD t 10 / 10), tx.increasing)
        else if tx.increasing then
          (if tx.config.max_range ≤ tx.state.current_value + tx.config.step_size then
             (tx.config.max_range, false)
           else (tx.state.current_value + tx.config.step_size, true))
        else
          (if tx.state.current_value - tx.config.step_size ≤ tx.config.min_range then
             (tx.config.min_range, true)
           else (tx.state.current_value - tx.config.step_size, false))
      { config := tx.config
        state := { current_value := vi.1, simulation_time := t,
                   fault := decide (vi.1 < tx.config.min_scale ∨ tx.config.max_scale < vi.1) }
        increasing := vi.2 }

/-- Concrete transmitter used to refute claim C4: overflow mode with a
stale `fault = true` and scale bounds `[0, 10]`. -/
noncomputable def txBad : Transmitter :=
  { config := { min_range := 0, max_range := 100, min_scale := 0, max_scale := 10,
                step_size := 1, simulation_active := true, sine_wave := false,
                sawtooth_wave := false, overflow := true, underflow := false }
    state := { current_value := 50, simulation_time := 0, fault := true }
    increasing := true }

/-! ### Three-phase separator (`seperator.c`) -/

/-- `GAS_CONSTANT` (J/mol K). -/
noncomputable def GAS_CONSTANT : ℝ := 8.314

/-- `TEMPERATURE` (K). -/
noncomputable def TEMPERATURE : ℝ := 300

/-- `GAS_MOLAR_MASS` (kg/mol). -/
noncomputable def GAS_MOLAR_MASS : ℝ := 0.029

/-- `GAMMA`, the specific heat ratio. -/
noncomputable def GAMMA : ℝ := 1.4

/-- `CRITICAL_PRESSURE_RATIO = pow(2/(GAMMA+1), GAMMA/(GAMMA-1))`
(about 0.528). -/
noncomputable def rcrit : ℝ := (2 / (GAMMA + 1)) ^ (GAMMA / (GAMMA - 1))

/-- Constant `sep->area` (m^2), set by `Separator_Init` and never
written afterwards. -/
noncomputable def sepArea : ℝ := 10

/-- Constant `sep->total_volume` (m^3). -/
noncomputable def sepTotalVolume : ℝ := 50

/-- Constant discharge coefficient `sep->Cd`. -/
noncomputable def sepCd : ℝ := 0.6

/-- Constant `sep->A_valve_liquid` (m^2). -/
noncomputable def A_valve_liquid : ℝ := 0.01

/-- Constant `sep->A_valve_gas` (m^2). -/
noncomputable def A_valve_gas : ℝ := 0.005

/-- Constant `sep->ambient_pressure` (Pa). -/
noncomputable def ambient_pressure : ℝ := 101325

/-- `max_height = total_volume / area`. -/
noncomputable def max_height : ℝ := sepTotalVolume / sepArea

/-- The `config` sub-struct of `SeparatorSimulator`. -/
structure SepConfig where
  Q_in_oil : ℝ
  Q_in_water : ℝ
  Q_in_gas : ℝ
  valve_oil : ℝ
  valve_water : ℝ
  valve_gas : ℝ

/-- The mutable state of `SeparatorSimulator`: the `state` sub-struct
plus the sibling `gas_mass` field, both written by `Separator_Update`. -/
structure SepState where
  h_oil : ℝ
  h_water : ℝ
  pressure : ℝ
  gas_mass : ℝ

/-- The choked (critical) branch of the gas-outflow computation in
`Separator_Update`: `Cd * A_valve_gas * (valve_gas/100) *
sqrt(GAMMA * pressure / GAS_MOLAR_MASS * pow(2/(GAMMA+1),
(GAMMA+1)/(GAMMA-1)))`. -/
noncomputable def chokedQ (pressure valve_gas : ℝ) : ℝ :=
  sepCd * A_valve_gas * (valve_gas / 100) *
    Real.sqrt (GAMMA * pressure / GAS_MOLAR_MASS *
      (2 / (GAMMA + 1)) ^ ((GAMMA + 1) / (GAMMA - 1)))

/-- The subcritical branch of the gas-outflow computation in
`Separator_Update`: `Cd * A_valve_gas * (valve_gas/100) *
sqrt(2 * pressure / GAS_MOLAR_MASS * (GAMMA/(GAMMA-1)) *
(pow(P_ratio, 2/GAMMA) - pow(P_ratio, (GAMMA+1)/GAMMA)))`. -/
noncomputable def subcritQ (pressure valve_gas prat : ℝ) : ℝ :=
  sepCd * A_valve_gas * (valve_gas / 100) *
    Real.sqrt (2 * pressure / GAS_MOLAR_MASS * (GAMMA / (GAMMA - 1)) *
      (prat ^ (2 / GAMMA) - prat ^ ((GAMMA + 1) / GAMMA)))

/-- The oil level after step 1 of `Separator_Update`: Torricelli
outflow, explicit Euler step, clamp to `[0, max_height]`. -/
noncomputable def h_oil_next (cfg : SepConfig) (st : SepState) (cycle_time_ms : ℕ) : ℝ :=
  let dt := (cycle_time_ms : ℝ) / 1000
  let Q_out_oil := sepCd * A_valve_liquid * (cfg.valve_oil / 100) *
    Real.sqrt (2 * 9.81 * st.h_oil)
  min (max (st.h_oil + (cfg.Q_in_oil - Q_out_oil) / sepArea * dt) 0) max_height

/-- The water level after step 1 of `Separator_Update`: clamped to
`[0, max_height - h_oil]`, the oil layer taking priority. -/
noncomputable def h_water_next (cfg : SepConfig) (st : SepState) (cycle_time_ms : ℕ) : ℝ :=
  let dt := (cycle_time_ms : ℝ) / 1000
  let Q_out_water := sepCd * A_valve_liquid * (cfg.valve_water / 100) *
    Real.sqrt (2 * 9.81 * st.h_water)
  min (max (st.h_water + (cfg.Q_in_water - Q_out_water) / sepArea * dt) 0)
    (max_height - h_oil_next cfg st cycle_time_ms)

/-- The gas outflow of `Separator_Update`: choked below or at the
critical pressure ratio, subcritical above it. -/
noncomputable def Q_out_gas (cfg : SepConfig) (st : SepState) : ℝ :=
  let prat := ambient_pressure / st.pressure
  if prat ≤ rcrit then chokedQ st.pressure cfg.valve_gas
  else subcritQ st.pressure cfg.valve_gas prat

/-- The gas mass after step 4 of `Separator_Update`: volumetric inflow
converted to mass flow at the current pressure, minus outflow mass. -/
noncomputable def gas_mass_next (cfg : SepConfig) (st : SepState) (cycle_time_ms : ℕ) : ℝ :=
  let dt := (cycle_time_ms : ℝ) / 1000
  let Q_in_gas_mass := cfg.Q_in_gas * st.pressure * GAS_MOLAR_MASS /
    (GAS_CONSTANT * TEMPERATURE)
  st.gas_mass + (Q_in_gas_mass - Q_out_gas cfg st * GAS_MOLAR_MASS) * dt

/-- `Separator_Update` from `seperator.c`. -/
noncomputable def Separator_Update (cfg : SepConfig) (st : SepState) (cycle_time_ms : ℕ) :
    SepState :=
  let h_oil2 := h_oil_next cfg st cycle_time_ms
  let h_water2 := h_water_next cfg st cycle_time_ms
  let V_gas := sepTotalVolume - sepArea * (h_oil2 + h_water2)
  let gm := gas_mass_next cfg st cycle_time_ms
  { h_oil := h_oil2
    h_water := h_water2
    pressure := max (gm * GAS_CONSTANT * TEMPERATURE / (V_gas * GAS_MOLAR_MASS))
      ambient_pressure
    gas_mass := gm }

/-- The steady-state default configuration set by `Separator_Init`, with
the gas path shut (`Q_in_gas = 0`, `valve_gas = 0`). -/
noncomputable def sepCfgShut : SepConfig :=
  { Q_in_oil := 0.05, Q_in_water := 0.03, Q_in_gas := 0,
    valve_oil := 45, valve_water := 35, valve_gas := 0 }

/-- The initial state set by `Separator_Init`. -/
noncomputable def sepSt0 : SepState :=
  { h_oil := 0.5, h_water := 0.5, pressure := 150000,
    gas_mass := 150000 * (50 - 10 * (0.5 + 0.5)) * 0.029 / (8.314 * 300) }

/-- The vessel pressure at which the pressure ratio
`ambient_pressure / pressure` sits exactly on the critical ratio. -/
noncomputable def c3Pressure : ℝ := ambient_pressure / rcrit

lemma allEnergized_all_true (count : ℕ) : allEnergized count (true, true, true) = true := by
  simp [allEnergized]

lemma Valve_Update_param (c : ℕ) (v : OnOffValve) :
    (Valve_Update c v).param = v.param := by
  rcases h : v.state.current_state <;> simp [Valve_Update, h] <;> split <;> rfl

lemma Valve_Update_cmds (c : ℕ) (v : OnOffValve) :
    (Valve_Update c v).sig.solenoid_cmds = v.sig.solenoid_cmds := by
  rcases h : v.state.current_state <;> simp [Valve_Update, h] <;> split <;> rfl

lemma Valve_Update_esd_latched (c : ℕ) (v : OnOffValve) :
    (Valve_Update c v).state.esd_latched = v.state.esd_latched := by
  rcases h : v.state.current_state <;> simp [Valve_Update, h] <;> split <;> rfl

lemma Valve_iterate_cmds (c n : ℕ) (v : OnOffValve) :
    ((Valve_Update c)^[n] v).sig.solenoid_cmds = v.sig.solenoid_cmds := by
  induction n with
  | zero => rfl
  | succ k ih => rw [Function.iterate_succ_apply', Valve_Update_cmds, ih]

lemma Valve_iterate_param (c n : ℕ) (v : OnOffValve) :
    ((Valve_Update c)^[n] v).param = v.param := by
  induction n with
  | zero => rfl
  | succ k ih => rw [Function.iterate_succ_apply', Valve_Update_param, ih]

/-- C7: once in `Fault`, any number of `Valve_Update` calls without the
reset command leaves the whole valve record unchanged; a single call
with the reset command asserted moves to `Closed`, clears the fault
output, consumes the reset command, and changes nothing else. -/
theorem fault_latch_semantics (c n : ℕ) (s s' : OnOffValve)
    (hs : s.state.current_state = ValveState.Fault)
    (hr : s.sig.reset_cmd = false)
    (hs' : s'.state.current_state = ValveState.Fault)
    (hr' : s'.sig.reset_cmd = true) :
    (Valve_Update c)^[n] s = s ∧
    Valve_Update c s' =
      { s' with
        state := { s'.state with current_state := ValveState.Closed }
        sig := { s'.sig with fault := false, reset_cmd := false } } := by
  constructor
  · have hfix : Valve_Update c s = s := by
      simp [Valve_Update, hs, hr]
    induction n with
    | zero => rfl
    | succ k ih => rw [Function.iterate_succ_apply, hfix, ih]
  · simp [Valve_Update, hs', hr']

/-- Closed witness for `fault_latch_semantics` at the concrete latched
valves `faultValve` and `faultValveReset`. -/
theorem fault_latch_semantics_witness :
    (faultValve.state.current_state = ValveState.Fault ∧
     faultValve.sig.reset_cmd = false ∧
     faultValveReset.state.current_state = ValveState.Fault ∧
     faultValveReset.sig.reset_cmd = true) ∧
    ((Valve_Update 100)^[3] faultValve = faultValve ∧
     Valve_Update 100 faultValveReset =
       { faultValveReset with
         state := { faultValveReset.state with current_state := ValveState.Closed }
         sig := { faultValveReset.sig with fault := false, reset_cmd := false } }) :=
  ⟨⟨rfl, rfl, rfl, rfl⟩,
   fault_latch_semantics 100 3 faultValve faultValveReset rfl rfl rfl rfl⟩

lemma valve_inv_step (c : ℕ) (i : ValveInputs) (v : OnOffValve)
    (h1 : v.state.current_state ≠ ValveState.Fault)
    (h2 : v.sig.fault = false)
    (h3 : v.state.esd_latched = false) :
    (Valve_Update c (applyInputs i v)).state.current_state ≠ ValveState.Fault ∧
    (Valve_Update c (applyInputs i v)).sig.fault = false ∧
    (Valve_Update c (applyInputs i v)).state.esd_latched = false := by
  cases hcs : v.state.current_state with
  | Fault => exact absurd hcs h1
  | Closed => simp only [Valve_Update, applyInputs, hcs] <;> split <;> simp [hcs, h2, h3]
  | Opening => simp only [Valve_Update, applyInputs, hcs] <;> split <;> simp [hcs, h2, h3]
  | Open => simp only [Valve_Update, applyInputs, hcs] <;> split <;> simp [hcs, h2, h3]
  | Closing => simp only [Valve_Update, applyInputs, hcs] <;> split <;> simp [hcs, h2, h3]

lemma valve_inv_run (c : ℕ) (l : List ValveInputs) (v : OnOffValve)
    (h1 : v.state.current_state ≠ ValveState.Fault)
    (h2 : v.sig.fault = false)
    (h3 : v.state.esd_latched = false) :
    (valveRun c l v).state.current_state ≠ ValveState.Fault ∧
    (valveRun c l v).sig.fault = false ∧
    (valveRun c l v).state.esd_latched = false := by
  induction l generalizing v with
  | nil => exact ⟨h1, h2, h3⟩
  | cons i tl ih =>
      have hstep := valve_inv_step c i v h1 h2 h3
      exact ih (Valve_Update c (applyInputs i v)) hstep.1 hstep.2.1 hstep.2.2

/-- C10: from the `Valve_Init` state, for every sequence of input
assignments the supervisor never reaches `Fault`, never raises the
fault output, and never sets `esd_latched`; moreover `Valve_Update`
commutes with overwriting the `esd_latching` parameter (the parameter
influences no transition) and never changes the `esd_latched` field. -/
theorem fault_unreachable_from_init (c : ℕ) (l : List ValveInputs) :
    ((valveRun c l Valve_Init).state.current_state ≠ ValveState.Fault ∧
     (valveRun c l Valve_Init).sig.fault = false ∧
     (valveRun c l Valve_Init).state.esd_latched = false) ∧
    (∀ (v : OnOffValve) (b : Bool),
        Valve_Update c (withLatching b v) = withLatching b (Valve_Update c v)) ∧
    (∀ v : OnOffValve, (Valve_Update c v).state.esd_latched = v.state.esd_latched) := by
  refine ⟨valve_inv_run c l Valve_Init (by simp [Valve_Init]) rfl rfl, ?_, fun v => Valve_Update_esd_latched c v⟩
  intro v b
  rcases h : v.state.current_state <;>
    simp [Valve_Update, withLatching, h] <;> split <;> rfl

lemma c2_trace (s : OnOffValve) (c : ℕ)
    (hcs : s.state.current_state = ValveState.Closed)
    (ht : s.state.state_timer = 0)
    (hcmds : s.sig.solenoid_cmds = (true, true, true))
    (htt : 0 < s.param.travel_time_ms)
    (hwrap : s.param.travel_time_ms + c ≤ 4294967296) :
    ∀ n, 1 ≤ n →
      ((n - 1) * c < s.param.travel_time_ms →
        (Valve_Update c)^[n] s = openingAt s ((n - 1) * c)) ∧
      (s.param.travel_time_ms ≤ (n - 1) * c →
        ((Valve_Update c)^[n] s).state.current_state = ValveState.Open) := by
  intro n hn
  induction n, hn using Nat.le_induction with
  | base =>
      constructor
      · intro _
        simp only [Function.iterate_one]
        simp [Valve_Update, hcs, hcmds, allEnergized_all_true, openingAt, ht]
      · intro habs
        omega
  | succ n hn ih =>
      simp only [Nat.add_sub_cancel]
      have hn1 : n - 1 + 1 = n := Nat.succ_pred_eq_of_pos hn
      have hnc : (n - 1) * c + c = n * c := by
        calc (n - 1) * c + c = ((n - 1) + 1) * c := by ring
          _ = n * c := by rw [hn1]
      by_cases hlt : (n - 1) * c < s.param.travel_time_ms
      · have hstate := (ih).1 hlt
        have hmodn : n * c % 4294967296 = n * c := by
          apply Nat.mod_eq_of_lt
          omega
        constructor
        · intro hlt'
          rw [Function.iterate_succ_apply', hstate]
          have hnle : ¬ s.param.travel_time_ms ≤ n * c := by omega
          simp [Valve_Update, openingAt, hnc, hmodn, hnle]
        · intro hge'
          rw [Function.iterate_succ_apply', hstate]
          have hle : s.param.travel_time_ms ≤ n * c := by omega
          simp [Valve_Update, openingAt, hnc, hmodn, hle]
      · have hge : s.param.travel_time_ms ≤ (n - 1) * c := by omega
        have hopen := (ih).2 hge
        have hcmds' : ((Valve_Update c)^[n] s).sig.solenoid_cmds = (true, true, true) := by
          rw [Valve_iterate_cmds, hcmds]
        constructor
        · intro habs
          omega
        · intro _
          rw [Function.iterate_succ_apply']
          simp [Valve_Update, hopen, hcmds', allEnergized_all_true]

/-- C2 (amended): from `Closed` with timer 0 and all solenoid commands
energized, after `N` calls of `Valve_Update` with cycle duration `c`
the supervisor is in `Open` exactly when `(N-1)*c ≥ travel_time_ms`:
the first call only enters `Opening`, and the timer accumulates on the
subsequent calls (provided `travel_time_ms > 0` and
`travel_time_ms + c` does not overflow the `uint32` timer). -/
theorem valve_open_timing (s : OnOffValve) (c N : ℕ)
    (hcs : s.state.current_state = ValveState.Closed)
    (ht : s.state.state_timer = 0)
    (hcmds : s.sig.solenoid_cmds = (true, true, true))
    (hcount : s.param.solenoid_count ≤ 3)
    (htt : 0 < s.param.travel_time_ms)
    (hwrap : s.param.travel_time_ms + c ≤ 4294967296) :
    ((Valve_Update c)^[N] s).state.current_state = ValveState.Open ↔
      s.param.travel_time_ms ≤ (N - 1) * c := by
  cases N with
  | zero =>
      apply iff_of_false
      · simp [hcs]
      · omega
  | succ m =>
      have htr := c2_trace s c hcs ht hcmds htt hwrap (m + 1) (by omega)
      by_cases hlt : (m + 1 - 1) * c < s.param.travel_time_ms
      · apply iff_of_false
        · rw [htr.1 hlt]
          simp [openingAt]
        · omega
      · exact iff_of_true (htr.2 (by omega)) (by omega)

/-- C2 counterexample: with `travel_time_ms = 200` and `cycle_ms = 100`,
after `N = 2` calls we have `N*cycle_ms = 200 ≥ travel_time_ms`, yet
the supervisor is still in `Opening`, not `Open` (the first call only
performs the `Closed → Opening` transition). -/
theorem valve_open_timing_cex :
    c2Valve.param.travel_time_ms ≤ 2 * 100 ∧
    ((Valve_Update 100)^[2] c2Valve).state.current_state ≠ ValveState.Open := by
  constructor
  · decide
  · decide

/-- Closed witness for `valve_open_timing`: at `c2Valve` with
`travel_time_ms = 200`, `c = 100`, `N = 3`. -/
theorem valve_open_timing_witness :
    (c2Valve.state.current_state = ValveState.Closed ∧
     c2Valve.state.state_timer = 0 ∧
     c2Valve.sig.solenoid_cmds = (true, true, true) ∧
     c2Valve.param.solenoid_count ≤ 3 ∧
     0 < c2Valve.param.travel_time_ms ∧
     c2Valve.param.travel_time_ms + 100 ≤ 4294967296) ∧
    (((Valve_Update 100)^[3] c2Valve).state.current_state = ValveState.Open ↔
      c2Valve.param.travel_time_ms ≤ (3 - 1) * 100) :=
  ⟨⟨rfl, rfl, rfl, by decide, by decide, by decide⟩,
   valve_open_timing c2Valve 100 3 rfl rfl rfl (by decide) (by decide) (by decide)⟩

lemma charFraction_nonneg (ch : ℤ) (o : ℝ) (ho : 0 ≤ o) : 0 ≤ charFraction ch o := by
  unfold charFraction
  split
  · positivity
  · have h2 : (50 : ℝ) ^ (0 : ℝ) ≤ (50 : ℝ) ^ (o / 100) :=
      Real.rpow_le_rpow_of_exponent_le (by norm_num) (by positivity)
    rw [Real.rpow_zero] at h2
    have h49 : (0 : ℝ) ≤ 50 - 1 := by norm_num
    exact div_nonneg (by linarith) h49

/-- C9: a cycle arriving while less than `dead_time_seconds` of wall
time has elapsed since the last accepted update changes nothing: the
whole valve record (hence `valve_opening`, `flow`,
`last_control_signal` and `last_update_time`) is returned unchanged. -/
theorem deadtime_rejects_frame (now : ℝ) (v : FlowControlValve)
    (h : now - v.error.last_update_time < v.error.dead_time_seconds) :
    FlowControlValve_Update now v = v := by
  simp only [FlowControlValve_Update]
  rw [if_pos h]

/-- Closed witness for `deadtime_rejects_frame` at `fcvGated`
(`dead_time_seconds = 5`, `last_update_time = 0`, `now = 1`). -/
theorem deadtime_rejects_frame_witness :
    ((1 : ℝ) - fcvGated.error.last_update_time < fcvGated.error.dead_time_seconds) ∧
    FlowControlValve_Update 1 fcvGated = fcvGated := by
  have h : (1 : ℝ) - fcvGated.error.last_update_time < fcvGated.error.dead_time_seconds := by
    norm_num [fcvGated, fcvGood]
  exact ⟨h, deadtime_rejects_frame 1 fcvGated h⟩

/-- C1 (amended): an accepted `FlowControlValve_Update` computes
`flow = Cv_eff * sqrt(delta_p)` with `delta_p = upstream_pressure - 1`
left unclamped.  When `upstream_pressure ≥ 1` this coincides with
`Cv_eff * sqrt(max(upstream_pressure - 1, 0))` and, for `kv ≥ 0`, is
non-negative; when `upstream_pressure < 1` the flow is NaN (`none`),
so the claimed clamp and the never-NaN property do not hold in
general. -/
theorem flow_formula_amended (now : ℝ) (v : FlowControlValve)
    (hacc : ¬ (now - v.error.last_update_time < v.error.dead_time_seconds)) :
    (1 ≤ v.config.upstream_pressure →
      (FlowControlValve_Update now v).state.flow =
        some (v.config.kv *
          charFraction v.config.valve_characteristic
            ((FlowControlValve_Update now v).state.valve_opening) *
          Real.sqrt (max (v.config.upstream_pressure - 1) 0)) ∧
      (0 ≤ v.config.kv →
        ∀ y, (FlowControlValve_Update now v).state.flow = some y → 0 ≤ y)) ∧
    (v.config.upstream_pressure < 1 →
      (FlowControlValve_Update now v).state.flow = none) := by
  constructor
  · intro hup
    have hd : ¬ (v.config.upstream_pressure - 1 < 0) := by linarith
    have hmax : max (v.config.upstream_pressure - 1) 0 = v.config.upstream_pressure - 1 :=
      max_eq_left (by linarith)
    constructor
    · simp only [FlowControlValve_Update, if_neg hacc, flowFromOpening, sqrtD, if_neg hd,
        Option.map_some', hmax]
    · intro hkv y hy
      simp only [FlowControlValve_Update, if_neg hacc, flowFromOpening, sqrtD, if_neg hd,
        Option.map_some', Option.some.injEq] at hy
      subst hy
      refine mul_nonneg (mul_nonneg hkv ?_) (Real.sqrt_nonneg _)
      apply charFraction_nonneg
      exact le_min (le_max_right _ _) (by norm_num)
  · intro hlt
    have hd : v.config.upstream_pressure - 1 < 0 := by linarith
    simp only [FlowControlValve_Update, if_neg hacc, flowFromOpening, sqrtD, if_pos hd,
      Option.map_none']

/-- Closed witness for `flow_formula_amended` at `fcvGood`
(`upstream_pressure = 5`, `dead_time_seconds = 0`, `now = 1`). -/
theorem flow_formula_amended_witness :
    (¬ ((1 : ℝ) - fcvGood.error.last_update_time < fcvGood.error.dead_time_seconds)) ∧
    (FlowControlValve_Update 1 fcvGood).state.flow =
      some (fcvGood.config.kv *
        charFraction fcvGood.config.valve_characteristic
          ((FlowControlValve_Update 1 fcvGood).state.valve_opening) *
        Real.sqrt (max (fcvGood.config.upstream_pressure - 1) 0)) := by
  have h : ¬ ((1 : ℝ) - fcvGood.error.last_update_time < fcvGood.error.dead_time_seconds) := by
    norm_num [fcvGood]
  have h2 : (1 : ℝ) ≤ fcvGood.config.upstream_pressure := by norm_num [fcvGood]
  exact ⟨h, ((flow_formula_amended 1 fcvGood h).1 h2).1⟩

/-- C1 counterexample: at `upstream_pressure = 0.5` the cycle is
accepted (dead time 0) yet the resulting flow is NaN (`none`), because
`delta_p = -0.5` is passed to `sqrt` unclamped; in particular the flow
does not equal `Cv_eff * sqrt(max(upstream_pressure - 1, 0))` and "never
NaN" fails. -/
theorem flow_nan_cex :
    (¬ ((1 : ℝ) - fcvBad.error.last_update_time < fcvBad.error.dead_time_seconds)) ∧
    (FlowControlValve_Update 1 fcvBad).state.flow = none := by
  have h : ¬ ((1 : ℝ) - fcvBad.error.last_update_time < fcvBad.error.dead_time_seconds) := by
    norm_num [fcvBad]
  have hd : fcvBad.config.upstream_pressure - 1 < 0 := by norm_num [fcvBad]
  refine ⟨h, ?_⟩
  simp only [FlowControlValve_Update, if_neg h, flowFromOpening, sqrtD, if_pos hd,
    Option.map_none']

/-- C8: for fixed `kv > 0`, fixed `upstream_pressure` and either valve
characteristic, the flow computed from the valve opening by the code's
formula is non-decreasing in the opening on `[0, 100]` (whenever the
flow is an actual number rather than NaN). -/
theorem flow_monotone_in_opening (kv up : ℝ) (ch : ℤ) (o1 o2 y1 y2 : ℝ)
    (ho1 : 0 ≤ o1) (h12 : o1 ≤ o2) (ho2 : o2 ≤ 100) (hkv : 0 < kv)
    (hy1 : flowFromOpening kv up ch o1 = some y1)
    (hy2 : flowFromOpening kv up ch o2 = some y2) :
    y1 ≤ y2 := by
  unfold flowFromOpening sqrtD at hy1 hy2
  by_cases hd : up - 1 < 0
  · rw [if_pos hd] at hy1
    simp at hy1
  · rw [if_neg hd] at hy1 hy2
    simp only [Option.map_some', Option.some.injEq] at hy1 hy2
    subst hy1
    subst hy2
    have hf : charFraction ch o1 ≤ charFraction ch o2 := by
      unfold charFraction
      split
      · linarith
      · have hr := Real.rpow_le_rpow_of_exponent_le (show (1 : ℝ) ≤ 50 by norm_num)
          (show o1 / 100 ≤ o2 / 100 by linarith)
        have h49 : (0 : ℝ) ≤ 50 - 1 := by norm_num
        apply div_le_div_of_nonneg_right ?_ h49
        linarith
    have hmul : kv * charFraction ch o1 ≤ kv * charFraction ch o2 :=
      mul_le_mul_of_nonneg_left hf (le_of_lt hkv)
    exact mul_le_mul_of_nonneg_right hmul (Real.sqrt_nonneg _)

/-- Closed witness for `flow_monotone_in_opening` with the equal
percentage characteristic at openings 0 and 100, `kv = 10`,
`upstream_pressure = 5`. -/
theorem flow_monotone_in_opening_witness :
    ((0 : ℝ) ≤ 0 ∧ (0 : ℝ) ≤ 100 ∧ (100 : ℝ) ≤ 100 ∧ (0 : ℝ) < 10 ∧
     flowFromOpening 10 5 1 0 = some (10 * charFraction 1 0 * Real.sqrt ((5 : ℝ) - 1)) ∧
     flowFromOpening 10 5 1 100 = some (10 * charFraction 1 100 * Real.sqrt ((5 : ℝ) - 1))) ∧
    10 * charFraction 1 0 * Real.sqrt ((5 : ℝ) - 1) ≤
      10 * charFraction 1 100 * Real.sqrt ((5 : ℝ) - 1) := by
  have hnn : ¬ ((5 : ℝ) - 1 < 0) := by norm_num
  have h1 : flowFromOpening 10 5 1 0 = some (10 * charFraction 1 0 * Real.sqrt ((5 : ℝ) - 1)) := by
    simp only [flowFromOpening, sqrtD, if_neg hnn, Option.map_some']
  have h2 : flowFromOpening 10 5 1 100 =
      some (10 * charFraction 1 100 * Real.sqrt ((5 : ℝ) - 1)) := by
    simp only [flowFromOpening, sqrtD, if_neg hnn, Option.map_some']
  exact ⟨⟨le_refl 0, by norm_num, le_refl 100, by norm_num, h1, h2⟩,
    flow_monotone_in_opening 10 5 1 0 100 _ _ (le_refl 0) (by norm_num) (le_refl 100)
      (by norm_num) h1 h2⟩

/-- C4 (amended): with the simulation active, the overflow (resp.
underflow) mode pins `current_value` to `max_scale` (resp. `min_scale`)
and returns early, leaving `fault` at its previous value; only in the
remaining modes (sine, sawtooth, ramp walk) is `fault` recomputed as
`current_value` outside `[min_scale, max_scale]`. -/
theorem transmitter_fault_amended (tx : Transmitter) (n : ℕ)
    (hact : tx.config.simulation_active = true) :
    (tx.config.overflow = true →
      (Transmitter_Update tx n).state.current_value = tx.config.max_scale ∧
      (Transmitter_Update tx n).state.fault = tx.state.fault) ∧
    (tx.config.overflow = false → tx.config.underflow = true →
      (Transmitter_Update tx n).state.current_value = tx.config.min_scale ∧
      (Transmitter_Update tx n).state.fault = tx.state.fault) ∧
    (tx.config.overflow = false → tx.config.underflow = false →
      ((Transmitter_Update tx n).state.fault = true ↔
        ((Transmitter_Update tx n).state.current_value < tx.config.min_scale ∨
          tx.config.max_scale < (Transmitter_Update tx n).state.current_value))) := by
  refine ⟨?_, ?_, ?_⟩
  · intro hov
    simp [Transmitter_Update, hact, hov]
  · intro hov hun
    simp [Transmitter_Update, hact, hov, hun]
  · intro hov hun
    simp [Transmitter_Update, hact, hov, hun]

/-- C4 counterexample: in overflow mode with a stale `fault = true` and
scale bounds `[0, 10]`, `Transmitter_Update` returns early, so after the
call `fault` is still `true` although `current_value = max_scale = 10`
lies inside `[min_scale, max_scale]` — `fault` is not recomputed in this
mode. -/
theorem transmitter_fault_cex :
    txBad.config.simulation_active = true ∧
    (Transmitter_Update txBad 100).state.fault = true ∧
    (Transmitter_Update txBad 100).state.current_value = txBad.config.max_scale ∧
    ¬ (txBad.config.max_scale < txBad.config.min_scale ∨
       txBad.config.max_scale < txBad.config.max_scale) := by
  refine ⟨rfl, ?_, ?_, ?_⟩
  · simp [Transmitter_Update, txBad]
  · simp [Transmitter_Update, txBad]
  · norm_num [txBad]

/-- Closed witness for `transmitter_fault_amended` at `txBad` (overflow
mode). -/
theorem transmitter_fault_amended_witness :
    txBad.config.simulation_active = true ∧
    ((Transmitter_Update txBad 100).state.current_value = txBad.config.max_scale ∧
     (Transmitter_Update txBad 100).state.fault = txBad.state.fault) :=
  ⟨rfl, (transmitter_fault_amended txBad 100 rfl).1 rfl⟩

/-- C5: `Separator_Update` preserves the state invariant for every
configuration and every input state: both liquid levels are
non-negative, their sum does not exceed `max_height =
total_volume / area`, and the pressure is floored at the ambient
pressure. -/
theorem separator_invariant (cfg : SepConfig) (st : SepState) (n : ℕ) :
    0 ≤ (Separator_Update cfg st n).h_oil ∧
    0 ≤ (Separator_Update cfg st n).h_water ∧
    (Separator_Update cfg st n).h_oil + (Separator_Update cfg st n).h_water ≤ max_height ∧
    ambient_pressure ≤ (Separator_Update cfg st n).pressure := by
  have hmh : (0 : ℝ) ≤ max_height := by
    norm_num [max_height, sepTotalVolume, sepArea]
  have h1 : (Separator_Update cfg st n).h_oil = h_oil_next cfg st n := rfl
  have h2 : (Separator_Update cfg st n).h_water = h_water_next cfg st n := rfl
  have hoil_le : h_oil_next cfg st n ≤ max_height := by
    unfold h_oil_next
    exact min_le_right _ _
  have hwater_le : h_water_next cfg st n ≤ max_height - h_oil_next cfg st n := by
    unfold h_water_next
    exact min_le_right _ _
  refine ⟨?_, ?_, ?_, le_max_right _ _⟩
  · rw [h1]
    unfold h_oil_next
    exact le_min (le_max_right _ _) hmh
  · rw [h2]
    unfold h_water_next
    exact le_min (le_max_right _ _) (by linarith)
  · rw [h1, h2]
    linarith

/-- C6: with `Q_in_gas = 0` and `valve_gas = 0` the gas mass is
unchanged by `Separator_Update`, hence invariant across any number of
consecutive calls, for every other configuration value and every state
with pressure at or above ambient. -/
theorem gas_mass_invariant (cfg : SepConfig) (st : SepState) (c : ℕ)
    (hq : cfg.Q_in_gas = 0) (hv : cfg.valve_gas = 0)
    (hp : ambient_pressure ≤ st.pressure) :
    ∀ n : ℕ, ((fun s => Separator_Update cfg s c)^[n] st).gas_mass = st.gas_mass := by
  have hstep : ∀ s : SepState, (Separator_Update cfg s c).gas_mass = s.gas_mass := by
    intro s
    have hout : Q_out_gas cfg s = 0 := by
      simp only [Q_out_gas]
      split
      · simp [chokedQ, hv]
      · simp [subcritQ, hv]
    show gas_mass_next cfg s c = s.gas_mass
    simp only [gas_mass_next, hq, hout]
    ring
  intro n
  induction n with
  | zero => rfl
  | succ k ih => rw [Function.iterate_succ_apply', hstep, ih]

/-- Closed witness for `gas_mass_invariant`: five update cycles from the
`Separator_Init` state with the gas path shut. -/
theorem gas_mass_invariant_witness :
    (sepCfgShut.Q_in_gas = 0 ∧ sepCfgShut.valve_gas = 0 ∧
     ambient_pressure ≤ sepSt0.pressure) ∧
    ((fun s => Separator_Update sepCfgShut s 100)^[5] sepSt0).gas_mass = sepSt0.gas_mass := by
  have h3 : ambient_pressure ≤ sepSt0.pressure := by
    norm_num [ambient_pressure, sepSt0]
  exact ⟨⟨rfl, rfl, h3⟩, gas_mass_invariant sepCfgShut sepSt0 100 rfl rfl h3 5⟩

/-- C3: at a pressure ratio exactly equal to the critical ratio
`(2/(γ+1))^(γ/(γ-1))` with `γ = 1.4`, the choked and the subcritical
branch of the gas-outflow computation agree in exact real arithmetic. -/
theorem choked_boundary_continuity (pressure valve_gas : ℝ)
    (h : ambient_pressure / pressure = rcrit) :
    chokedQ pressure valve_gas = subcritQ pressure valve_gas (ambient_pressure / pressure) := by
  rw [h]
  have hb : (2 / (GAMMA + 1) : ℝ) = 5 / 6 := by norm_num [GAMMA]
  have hg1 : (GAMMA / (GAMMA - 1) : ℝ) = 7 / 2 := by norm_num [GAMMA]
  have hg2 : ((GAMMA + 1) / (GAMMA - 1) : ℝ) = 6 := by norm_num [GAMMA]
  have hg3 : (2 / GAMMA : ℝ) = 10 / 7 := by norm_num [GAMMA]
  have hg4 : ((GAMMA + 1) / GAMMA : ℝ) = 12 / 7 := by norm_num [GAMMA]
  have hbase : (0 : ℝ) ≤ 5 / 6 := by norm_num
  have hr1 : rcrit ^ ((10 : ℝ) / 7) = ((5 : ℝ) / 6) ^ ((5 : ℝ)) := by
    unfold rcrit
    rw [hb, hg1, ← Real.rpow_mul hbase]
    norm_num
  have hr2 : rcrit ^ ((12 : ℝ) / 7) = ((5 : ℝ) / 6) ^ ((6 : ℝ)) := by
    unfold rcrit
    rw [hb, hg1, ← Real.rpow_mul hbase]
    norm_num
  have hP6 : ((5 : ℝ) / 6) ^ ((6 : ℝ)) = ((5 : ℝ) / 6) ^ ((5 : ℝ)) * (5 / 6) := by
    norm_num
  unfold chokedQ subcritQ
  rw [hb, hg2, hg1, hg3, hg4, hr1, hr2, hP6]
  congr 1
  congr 1
  simp only [GAMMA, GAS_MOLAR_MASS]
  ring

/-- Closed witness for `choked_boundary_continuity` at the concrete
boundary pressure `c3Pressure = ambient_pressure / rcrit` and a 25%
gas-valve opening. -/
theorem choked_boundary_continuity_witness :
    ambient_pressure / c3Pressure = rcrit ∧
    chokedQ c3Pressure 25 = subcritQ c3Pressure 25 (ambient_pressure / c3Pressure) := by
  have hrc : (0 : ℝ) < rcrit := by
    unfold rcrit
    exact Real.rpow_pos_of_pos (by norm_num [GAMMA]) _
  have hamb : (0 : ℝ) < ambient_pressure := by norm_num [ambient_pressure]
  have h : ambient_pressure / c3Pressure = rcrit := by
    unfold c3Pressure
    rw [div_div_eq_mul_div, mul_comm, mul_div_assoc, div_self (ne_of_gt hamb), mul_one]
  exact ⟨h, choked_boundary_continuity c3Pressure 25 h⟩
